import Mathlib

/-!
# Verification of the pythoncv wrapper layer

Shallow embedding of the `pythoncv` repository (a thin convenience layer
over OpenCV) and proofs about the claims of its specification.

Conventions of the embedding:
* A video frame is a 3-dimensional ndarray `(height, width, channel)`,
  modelled as nested lists of integer pixel values (`Frame3`).
* The native capture handle (`cv2.VideoCapture`) is modelled by
  `VideoCapture`: a decoded frame sequence with a read position, a
  property store keyed by the `cv2.CAP_PROP_*` alias name, and a
  predicate saying which native `set` calls the backend accepts.
* Python exceptions are modelled by the explicit error type `CVError`;
  each constructor is documented with the Python exception it stands for.
* `cv2.cvtColor` with `COLOR_BGR2RGB` / `COLOR_RGB2BGR` reverses the
  channel axis of a 3-channel image; it is embedded as reversing the
  innermost (channel) lists.
-/

set_option autoImplicit false

namespace PythonCV

/-- Errors of the wrapper layer.  Each constructor records the Python
exception the source raises at the corresponding place. -/
inductive CVError where
  /-- `StopIteration`, the Python end-of-sequence signal (`Video.__next__`). -/
  | stopIteration
  /-- `ValueError("The video has unlimited length ...")` in `Video.__len__`. -/
  | unknownLength
  /-- `AssertionError`/`ValueError` for a wrong frame shape in `VideoWriter.write`. -/
  | shapeMismatch
  /-- `RuntimeError(f"Failed to set {key} to {value}")` in the property proxies. -/
  | propertyRejected
  /-- `AttributeError(f"... has no attribute {item}")` in the property proxies. -/
  | unknownProperty
  /-- `RuntimeError("VideoWindow is not open")` in `VideoWindow`. -/
  | notOpen
  /-- `ZeroDivisionError` raised by Python's `1 / x` at `x == 0`. -/
  | zeroDivision
  /-- `RuntimeError(f"Failed to set fps to {value}")` in the `fps` setters. -/
  | fpsRejected
  /-- `ValueError(f"Invalid aspect ratio value: {value}")` in `VideoWindow`. -/
  | invalidValue
  /-- `AssertionError`/`AttributeError` for an invalid flag name in the
  image read/write flag wrappers. -/
  | invalidFlag
  /-- `KeyError` from a failed dictionary lookup. -/
  | keyError
  /-- `TypeError` raised by the cv2 bindings when handed a `None` value. -/
  | typeError
  /-- pydantic `ValidationError` from an assignment that violates a
  field's constrained type or a validator's assert
  (`validate_assignment = True` on the properties models). -/
  | validationError
  /-- `AssertionError`/`AttributeError` when a native decode returns `None`. -/
  | decodeFailure
  deriving DecidableEq, Repr

/-- A pixel value (uint8 in practice; the numeric range plays no role in the
claims, so pixels are plain integers). -/
abbrev Pix := Int

/-- A 3-dimensional `(H, W, C)` ndarray: rows of pixels of channel lists. -/
abbrev Frame3 := List (List (List Pix))

/-- `cv2.cvtColor(frame, cv2.COLOR_BGR2RGB)`: reverses the channel axis
(for 3-channel data, swapping channels 0 and 2). -/
def cvtColorBGR2RGB (f : Frame3) : Frame3 :=
  f.map (fun row => row.map List.reverse)

/-- `cv2.cvtColor(frame, cv2.COLOR_RGB2BGR)`: the same channel reversal in
the opposite direction. -/
def cvtColorRGB2BGR (f : Frame3) : Frame3 :=
  f.map (fun row => row.map List.reverse)

/-- The native capture handle (`cv2.VideoCapture`).

* `frames` is the decoded frame sequence of the source (BGR channel
  order, as OpenCV delivers it) and `pos` the current read position;
  a device / unbounded stream is a source whose reported
  `CAP_PROP_FRAME_COUNT` property is not a positive count.
* `props` is the value store behind `cap.get`, keyed by the
  `cv2.CAP_PROP_*` alias name (`cap.get` returns a double; values are
  rationals here).
* `setAccepts` tells which native `cap.set(prop, value)` calls the
  backend accepts; an accepted set stores the value. -/
structure VideoCapture where
  frames : List Frame3
  pos : Nat
  props : String → ℚ
  setAccepts : String → ℚ → Bool

/-- `cap.read()`: returns `(ret, frame)` and advances the position on
success; at end of stream it reports failure and stays exhausted. -/
def VideoCapture.read (cap : VideoCapture) : Option Frame3 × VideoCapture :=
  match cap.frames.get? cap.pos with
  | some f => (some f, { cap with pos := cap.pos + 1 })
  | none => (none, cap)

/-- `cap.get(name)` for a `cv2.CAP_PROP_*` alias name. -/
def VideoCapture.get (cap : VideoCapture) (propName : String) : ℚ :=
  cap.props propName

/-- `cap.set(name, value)`: on acceptance stores the value and returns
`true`; on rejection leaves the store unchanged and returns `false`. -/
def VideoCapture.set (cap : VideoCapture) (propName : String) (v : ℚ) :
    Bool × VideoCapture :=
  if cap.setAccepts propName v then
    (true, { cap with props := fun a => if a = propName then v else cap.props a })
  else
    (false, cap)

/-- The capture is at end of stream: the next native read will fail. -/
def VideoCapture.exhausted (cap : VideoCapture) : Prop :=
  cap.frames.length ≤ cap.pos

instance (cap : VideoCapture) : Decidable cap.exhausted :=
  inferInstanceAs (Decidable (cap.frames.length ≤ cap.pos))

/-- `Video.__next__`:

```python
ret, frame = self._cap.read()
if ret:
    return cv2.cvtColor(frame, cv2.COLOR_BGR2RGB)
else:
    raise StopIteration
```

The pair keeps the (possibly advanced) capture state next to the
result, since Python's `StopIteration` leaves the object alive. -/
def videoNext (cap : VideoCapture) : Except CVError Frame3 × VideoCapture :=
  match cap.read with
  | (some frame, cap') => (.ok (cvtColorBGR2RGB frame), cap')
  | (none, cap') => (.error .stopIteration, cap')

/-- Python's `int()` truncation toward zero, applied to a rational. -/
def pyInt (q : ℚ) : Int :=
  if 0 ≤ q then ⌊q⌋ else -⌊-q⌋

/-- `Video.__len__`:

```python
length = int(self._cap.get(cv2.CAP_PROP_FRAME_COUNT))
if length > 0:
    return length
else:
    raise ValueError("The video has unlimited length or the length is undefined.")
``` -/
def videoLen (cap : VideoCapture) : Except CVError Int :=
  if pyInt (cap.get "CAP_PROP_FRAME_COUNT") > 0 then
    .ok (pyInt (cap.get "CAP_PROP_FRAME_COUNT"))
  else
    .error .unknownLength

/-- The capture state after `n` further calls to `Video.__next__`. -/
def videoNextIter : Nat → VideoCapture → VideoCapture
  | 0, cap => cap
  | n + 1, cap => videoNextIter n (videoNext cap).2

theorem videoNext_of_exhausted {cap : VideoCapture} (h : cap.exhausted) :
    videoNext cap = (.error .stopIteration, cap) := by
  have hget : cap.frames.get? cap.pos = none := List.get?_eq_none.mpr h
  unfold videoNext VideoCapture.read
  rw [hget]

theorem videoNextIter_of_exhausted {cap : VideoCapture} (h : cap.exhausted) :
    ∀ n, videoNextIter n cap = cap := by
  intro n
  induction n with
  | zero => rfl
  | succ n ih =>
    show videoNextIter n (videoNext cap).2 = cap
    rw [videoNext_of_exhausted h]
    exact ih

/-- The `Video` object: the capture handle together with the
`_wait_time` instance attribute that the `fps` setter stores
(absent before the first successful set). -/
structure VideoReader where
  cap : VideoCapture
  waitTimeAttr : Option ℚ

/-- `Video.fps` getter: `return self._cap.get(cv2.CAP_PROP_FPS)`. -/
def VideoReader.fpsGet (v : VideoReader) : ℚ :=
  v.cap.get "CAP_PROP_FPS"

/-- `Video.fps` setter:

```python
if self._cap.set(cv2.CAP_PROP_FPS, value):
    self._wait_time = 1 / value if value > 0 else 0
else:
    raise RuntimeError(f'Failed to set fps to {value}')
```

Note the setter stores the derived wait time into the instance
attribute `_wait_time`, which no getter ever reads. -/
def VideoReader.fpsSet (v : VideoReader) (value : ℚ) :
    Except CVError VideoReader :=
  match v.cap.set "CAP_PROP_FPS" value with
  | (true, cap') =>
      .ok { cap := cap', waitTimeAttr := some (if value > 0 then 1 / value else 0) }
  | (false, _) => .error .fpsRejected

/-- `BaseVideo.wait_time` getter: `return 1 / self.fps`.  Python's `/`
raises `ZeroDivisionError` at a zero divisor; the getter does not read
the `_wait_time` attribute. -/
def VideoReader.waitTimeGet (v : VideoReader) : Except CVError ℚ :=
  if v.fpsGet = 0 then .error .zeroDivision else .ok (1 / v.fpsGet)

/-- `BaseVideo.wait_time` setter: `self.fps = 1 / value`. -/
def VideoReader.waitTimeSet (v : VideoReader) (value : ℚ) :
    Except CVError VideoReader :=
  if value = 0 then .error .zeroDivision else v.fpsSet (1 / value)

theorem pyInt_intCast (n : ℤ) : pyInt (n : ℚ) = n := by
  unfold pyInt
  by_cases h : (0 : ℚ) ≤ (n : ℚ)
  · rw [if_pos h, Int.floor_intCast]
  · rw [if_neg h]
    have h2 : (-(n : ℚ)) = ((-n : ℤ) : ℚ) := by push_cast; ring
    rw [h2, Int.floor_intCast, neg_neg]

/-- When an accepted `cap.set` stores a value, `cap.get` at the same
property name reads it back. -/
theorem VideoCapture.get_set_same (cap : VideoCapture) (name : String) (x : ℚ)
    (h : cap.setAccepts name x = true) :
    ((cap.set name x).2).get name = x := by
  unfold VideoCapture.set
  rw [if_pos h]
  simp [VideoCapture.get]

/-- C1: `Video.__next__` returns the BGR-to-RGB converted frame on a
successful native read; at end of stream it signals `StopIteration`
(the Python end-of-sequence signal, not an error) and leaves the
capture unchanged, so once the source is exhausted every further call
again signals `StopIteration` and re-iterating yields nothing more. -/
theorem video_next_spec (cap : VideoCapture) :
    (∀ f, cap.frames.get? cap.pos = some f →
        videoNext cap =
          (.ok (cvtColorBGR2RGB f), { cap with pos := cap.pos + 1 })) ∧
    (cap.exhausted →
        videoNext cap = (.error .stopIteration, cap) ∧
        ∀ n, (videoNext (videoNextIter n cap)).1 = .error .stopIteration) := by
  constructor
  · intro f hf
    unfold videoNext VideoCapture.read
    rw [hf]
  · intro h
    refine ⟨videoNext_of_exhausted h, fun n => ?_⟩
    rw [videoNextIter_of_exhausted h n, videoNext_of_exhausted h]

/-- A concrete capture over a one-frame 1x1 source reporting 300 for
every property, used to instantiate the theorems. -/
def demoCap : VideoCapture :=
  { frames := [[[[1, 2, 3]]]]
    pos := 0
    props := fun _ => 300
    setAccepts := fun _ _ => true }

/-- The demo capture after its single frame has been read. -/
def demoCapDone : VideoCapture := { demoCap with pos := 1 }

/-- Witness for C1 at the concrete one-frame capture. -/
theorem video_next_spec_witness :
    videoNext demoCap = (.ok [[[3, 2, 1]]], { demoCap with pos := 1 }) ∧
    videoNext demoCapDone = (.error .stopIteration, demoCapDone) ∧
    (videoNext (videoNextIter 5 demoCapDone)).1 = .error .stopIteration := by
  have h1 := (video_next_spec demoCap).1 [[[1, 2, 3]]] rfl
  have h2 := (video_next_spec demoCapDone).2 (by decide)
  exact ⟨h1, h2.1, h2.2 5⟩

/-- C3: `Video.__len__` returns the reported total frame count when it
is a known positive number and raises the unknown-length `ValueError`
whenever the reported count is non-positive (the `-1` / `0` reports of
device and stream sources included), never returning a spurious finite
count for an unbounded source. -/
theorem video_len_spec (cap : VideoCapture) (n : ℤ)
    (hrep : cap.get "CAP_PROP_FRAME_COUNT" = (n : ℚ)) :
    (0 < n → videoLen cap = .ok n) ∧
    (n ≤ 0 → videoLen cap = .error .unknownLength) := by
  unfold videoLen
  rw [hrep, pyInt_intCast]
  constructor
  · intro h
    rw [if_pos h]
  · intro h
    rw [if_neg (by omega)]

/-- A concrete capture for an unbounded device source: the native
frame-count report is the sentinel `-1`. -/
def demoDeviceCap : VideoCapture :=
  { frames := []
    pos := 0
    props := fun _ => -1
    setAccepts := fun _ _ => true }

/-- Witness for C3: the 300-frame file reports length 300 and the
device source fails with the unknown-length error. -/
theorem video_len_spec_witness :
    videoLen demoCap = .ok 300 ∧
    videoLen demoDeviceCap = .error .unknownLength := by
  constructor
  · exact (video_len_spec demoCap 300 (by norm_num [VideoCapture.get, demoCap])).1
      (by norm_num)
  · exact (video_len_spec demoDeviceCap (-1)
      (by norm_num [VideoCapture.get, demoDeviceCap])).2 (by norm_num)

/-- C4: the fps / wait_time coupling of the `Video` reader.  The two
positive-rate laws hold: after an accepted `fps := x` with `x > 0`,
reading `wait_time` returns `1 / x`, and after `wait_time := w` with
`w > 0`, reading `fps` returns `1 / w`.  The claimed `fps == 0`
convention does NOT hold: the setter stores the treat-as-0 value only
into the dead `_wait_time` attribute, while the `wait_time` getter
computes `1 / self.fps` and raises `ZeroDivisionError`. -/
theorem c4_fps_wait_time :
    (∀ (v v' : VideoReader) (x : ℚ), 0 < x → v.fpsSet x = .ok v' →
        v'.waitTimeGet = .ok (1 / x)) ∧
    (∀ (v v' : VideoReader) (w : ℚ), 0 < w → v.waitTimeSet w = .ok v' →
        v'.fpsGet = 1 / w) ∧
    (∀ (v v' : VideoReader), v.fpsSet 0 = .ok v' →
        v'.waitTimeAttr = some 0 ∧ v'.waitTimeGet = .error .zeroDivision) := by
  have key : ∀ (v v' : VideoReader) (x : ℚ), v.fpsSet x = .ok v' →
      v'.fpsGet = x ∧
      v'.waitTimeAttr = some (if x > 0 then 1 / x else 0) := by
    intro v v' x hset
    unfold VideoReader.fpsSet at hset
    by_cases hacc : v.cap.setAccepts "CAP_PROP_FPS" x
    · have hred : v.cap.set "CAP_PROP_FPS" x =
          (true, (v.cap.set "CAP_PROP_FPS" x).2) := by
        unfold VideoCapture.set
        rw [if_pos hacc]
      rw [hred] at hset
      simp only [Except.ok.injEq] at hset
      subst hset
      exact ⟨VideoCapture.get_set_same v.cap "CAP_PROP_FPS" x hacc, rfl⟩
    · have hred : v.cap.set "CAP_PROP_FPS" x = (false, v.cap) := by
        unfold VideoCapture.set
        rw [if_neg hacc]
      rw [hred] at hset
      exact absurd hset (by simp)
  refine ⟨?_, ?_, ?_⟩
  · intro v v' x hx hset
    have h := (key v v' x hset).1
    unfold VideoReader.waitTimeGet
    rw [h, if_neg (by positivity)]
  · intro v v' w hw hset
    unfold VideoReader.waitTimeSet at hset
    rw [if_neg (by positivity)] at hset
    exact (key v v' (1 / w) hset).1
  · intro v v' hset
    have h := key v v' 0 hset
    refine ⟨by rw [h.2]; norm_num, ?_⟩
    unfold VideoReader.waitTimeGet
    rw [h.1, if_pos rfl]

/-- The demo reader before any property writes. -/
def demoReader : VideoReader := { cap := demoCap, waitTimeAttr := none }

/-- The demo reader after `fps := 2` (extracted from the setter call). -/
def demoReaderFps2 : VideoReader :=
  ((demoReader.fpsSet 2).toOption).getD demoReader

/-- The demo reader after `fps := 0` (extracted from the setter call). -/
def demoReaderFps0 : VideoReader :=
  ((demoReader.fpsSet 0).toOption).getD demoReader

/-- Witness for C4 at the concrete reader: the positive law at
`fps := 2`, and the `ZeroDivisionError` after `fps := 0`. -/
theorem c4_fps_wait_time_witness :
    demoReaderFps2.waitTimeGet = .ok (1 / 2) ∧
    demoReaderFps0.waitTimeAttr = some 0 ∧
    demoReaderFps0.waitTimeGet = .error .zeroDivision := by
  have h2 : demoReader.fpsSet 2 = .ok demoReaderFps2 := rfl
  have h0 : demoReader.fpsSet 0 = .ok demoReaderFps0 := rfl
  have hz := c4_fps_wait_time.2.2 demoReader demoReaderFps0 h0
  exact ⟨c4_fps_wait_time.1 demoReader demoReaderFps2 2 (by norm_num) h2,
    hz.1, hz.2⟩

/-- `frame.shape[:2]` of a 3-dimensional `(H, W, C)` ndarray:
`(height, width)`. -/
def shape2 (f : Frame3) : Nat × Nat :=
  (f.length, (f.headD []).length)

/-- The `VideoWriter` object: the fixed `frame_size` from construction,
the frames already handed to the native encoder, and the native
writer handle's property store (`writer.get` / `writer.set`). -/
structure VideoWriterState where
  frameSize : Nat × Nat
  encoded : List Frame3
  props : String → ℚ
  setAccepts : String → ℚ → Bool

/-- `VideoWriter.write`:

```python
assert frame.shape[:2] == self.frame_size, ValueError(
    f"frame size must be {self.frame_size}, not {frame.shape[:2]}")
self._writer.write(cv2.cvtColor(frame, cv2.COLOR_RGB2BGR))
```

The result pairs the error (if any) with the updated writer state; on a
shape mismatch nothing reaches the native encoder. -/
def VideoWriterState.write (w : VideoWriterState) (frame : Frame3) :
    Except CVError Unit × VideoWriterState :=
  if shape2 frame = w.frameSize then
    (.ok (), { w with encoded := w.encoded ++ [cvtColorRGB2BGR frame] })
  else
    (.error .shapeMismatch, w)

/-- C2: `VideoWriter.write` rejects every frame whose leading two
dimensions differ from the configured `frame_size` with the
shape-mismatch error, handing nothing to the native encoder, and for a
matching frame hands the encoder exactly the RGB-to-BGR converted
frame. -/
theorem video_writer_write_spec (w : VideoWriterState) (frame : Frame3) :
    (shape2 frame ≠ w.frameSize →
        w.write frame = (.error .shapeMismatch, w)) ∧
    (shape2 frame = w.frameSize →
        w.write frame =
          (.ok (), { w with encoded := w.encoded ++ [cvtColorRGB2BGR frame] })) := by
  constructor
  · intro h
    unfold VideoWriterState.write
    rw [if_neg h]
  · intro h
    unfold VideoWriterState.write
    rw [if_pos h]

/-- A concrete writer configured for 1x1 frames. -/
def demoWriter : VideoWriterState :=
  { frameSize := (1, 1)
    encoded := []
    props := fun _ => 0
    setAccepts := fun _ _ => true }

/-- Witness for C2: the empty frame (shape `(0, 0)`) is rejected with
nothing encoded, and a matching 1x1 frame is encoded channel-reversed. -/
theorem video_writer_write_spec_witness :
    demoWriter.write [] = (.error .shapeMismatch, demoWriter) ∧
    demoWriter.write [[[1, 2, 3]]] =
      (.ok (), { demoWriter with encoded := [[[[3, 2, 1]]]] }) := by
  constructor
  · exact (video_writer_write_spec demoWriter []).1 (by decide)
  · exact (video_writer_write_spec demoWriter [[[1, 2, 3]]]).2 (by decide)

/-- A Python numeric value, with its runtime type: `cap.get` returns a
float; a caller-supplied property value may be an int or a float.  The
distinction matters because the `frame_count` / `n_frames`
pre-validator tests `isinstance(v, int)`. -/
inductive PyNum where
  | int (n : ℤ)
  | float (q : ℚ)
  deriving DecidableEq, Repr

/-- The numeric value of a `PyNum`. -/
def PyNum.val : PyNum → ℚ
  | .int n => n
  | .float q => q

/-- The constrained pydantic type of a properties field. -/
inductive FieldKind where
  /-- `conint(ge=lo)`. -/
  | intGe (lo : ℤ)
  /-- `confloat(ge=lo)`. -/
  | floatGe (lo : ℚ)
  /-- `confloat(ge=lo, le=hi)` (only `quality`). -/
  | floatRange (lo hi : ℚ)
  /-- `conint(ge=-1)` together with the `pre=True` validator

  ```python
  if v == -1:
      return None
  else:
      assert v >= 0 and isinstance(v, int), '... must be a positive integer or -1'
      return v
  ```
  of `frame_count` / `n_frames`. -/
  | countSentinel
  deriving DecidableEq, Repr

/-- The value a pydantic assignment stores for a field of the given
kind (`validate_assignment = True` on both properties models), or the
`ValidationError` it raises.  `none` is a stored Python `None` (the
normalized "unknown" sentinel).

* `conint` coerces a float through `int(v)` (truncation toward zero,
  `pyInt`), then checks the `ge` bound;
* `confloat` checks its bounds on the numeric value;
* the `countSentinel` pre-validator maps any value equal to `-1`
  (int or float) to `None` and otherwise requires a non-negative
  Python int — every other float report fails its
  `isinstance(v, int)` assert. -/
def pydanticConvert (kind : FieldKind) (v : PyNum) :
    Except CVError (Option PyNum) :=
  match kind with
  | .intGe lo =>
      match v with
      | .int n => if lo ≤ n then .ok (some (.int n)) else .error .validationError
      | .float q =>
          if lo ≤ pyInt q then .ok (some (.int (pyInt q)))
          else .error .validationError
  | .floatGe lo =>
      if lo ≤ v.val then .ok (some (.float v.val)) else .error .validationError
  | .floatRange lo hi =>
      if lo ≤ v.val ∧ v.val ≤ hi then .ok (some (.float v.val))
      else .error .validationError
  | .countSentinel =>
      if v.val = -1 then .ok none
      else
        match v with
        | .int n => if 0 ≤ n then .ok (some (.int n)) else .error .validationError
        | .float _ => .error .validationError

/-- The `VideoCaptureProperties.__fields__` table of
`pythoncv.types.video`: each recognized field name with the
`cv2.CAP_PROP_*` alias it maps to and its constrained pydantic
type. -/
def captureFields : List (String × String × FieldKind) :=
  [("pos_msec", "CAP_PROP_POS_MSEC", .intGe 0),
   ("pos_frames", "CAP_PROP_POS_FRAMES", .intGe 0),
   ("pos_avi_ratio", "CAP_PROP_POS_AVI_RATIO", .floatGe 0),
   ("frame_width", "CAP_PROP_FRAME_WIDTH", .intGe 0),
   ("frame_height", "CAP_PROP_FRAME_HEIGHT", .intGe 0),
   ("fps", "CAP_PROP_FPS", .floatGe 0),
   ("fourcc", "CAP_PROP_FOURCC", .intGe 0),
   ("frame_count", "CAP_PROP_FRAME_COUNT", .countSentinel),
   ("format", "CAP_PROP_FORMAT", .intGe 0),
   ("mode", "CAP_PROP_MODE", .intGe 0),
   ("brightness", "CAP_PROP_BRIGHTNESS", .floatGe 0),
   ("contrast", "CAP_PROP_CONTRAST", .floatGe 0),
   ("saturation", "CAP_PROP_SATURATION", .floatGe 0),
   ("hue", "CAP_PROP_HUE", .floatGe 0),
   ("gain", "CAP_PROP_GAIN", .floatGe 0),
   ("exposure", "CAP_PROP_EXPOSURE", .floatGe 0),
   ("convert_rgb", "CAP_PROP_CONVERT_RGB", .intGe 0),
   ("white_balance_blue_u", "CAP_PROP_WHITE_BALANCE_BLUE_U", .floatGe 0),
   ("rectification", "CAP_PROP_RECTIFICATION", .intGe 0),
   ("monochrome", "CAP_PROP_MONOCHROME", .intGe 0),
   ("sharpness", "CAP_PROP_SHARPNESS", .floatGe 0),
   ("auto_exposure", "CAP_PROP_AUTO_EXPOSURE", .floatGe 0),
   ("gamma", "CAP_PROP_GAMMA", .floatGe 0),
   ("temperature", "CAP_PROP_TEMPERATURE", .floatGe 0),
   ("trigger", "CAP_PROP_TRIGGER", .floatGe 0),
   ("trigger_delay", "CAP_PROP_TRIGGER_DELAY", .floatGe 0),
   ("white_balance_red_v", "CAP_PROP_WHITE_BALANCE_RED_V", .floatGe 0),
   ("zoom", "CAP_PROP_ZOOM", .floatGe 0),
   ("focus", "CAP_PROP_FOCUS", .floatGe 0),
   ("guid", "CAP_PROP_GUID", .intGe 0),
   ("iso_speed", "CAP_PROP_ISO_SPEED", .floatGe 0),
   ("back_light", "CAP_PROP_BACKLIGHT", .floatGe 0),
   ("pan", "CAP_PROP_PAN", .floatGe 0),
   ("tilt", "CAP_PROP_TILT", .floatGe 0),
   ("roll", "CAP_PROP_ROLL", .floatGe 0),
   ("iris", "CAP_PROP_IRIS", .floatGe 0),
   ("settings", "CAP_PROP_SETTINGS", .intGe 0),
   ("buffer_size", "CAP_PROP_BUFFERSIZE", .intGe 0),
   ("auto_focus", "CAP_PROP_AUTOFOCUS", .floatGe 0),
   ("sar_num", "CAP_PROP_SAR_NUM", .intGe 0),
   ("sar_den", "CAP_PROP_SAR_DEN", .intGe 0),
   ("backend", "CAP_PROP_BACKEND", .intGe 0),
   ("channel", "CAP_PROP_CHANNEL", .intGe 0),
   ("auto_wb", "CAP_PROP_AUTO_WB", .floatGe 0),
   ("wb_temperature", "CAP_PROP_WB_TEMPERATURE", .floatGe 0),
   ("codec_pixel_format", "CAP_PROP_CODEC_PIXEL_FORMAT", .intGe 0),
   ("bit_rate", "CAP_PROP_BITRATE", .intGe 0),
   ("orientation_meta", "CAP_PROP_ORIENTATION_META", .intGe 0),
   ("orientation_auto", "CAP_PROP_ORIENTATION_AUTO", .intGe 0),
   ("open_timeout", "CAP_PROP_OPEN_TIMEOUT_MSEC", .intGe 0),
   ("read_timeout", "CAP_PROP_READ_TIMEOUT_MSEC", .intGe 0)]

/-- The `VideoWriterProperties.__fields__` table. -/
def writerFields : List (String × String × FieldKind) :=
  [("quality", "VIDEOWRITER_PROP_QUALITY", .floatRange 0 100),
   ("frame_bytes", "VIDEOWRITER_PROP_FRAMEBYTES", .intGe 0),
   ("n_frames", "VIDEOWRITER_PROP_NSTRIPES", .countSentinel)]

/-- `__getattribute__` of the fake properties objects generated by
`_generate_capture_info_wrapper` / `_generate_writer_info_wrapper`:

```python
if item in properties.__fields__.keys():
    setattr(properties, item, cap.get(getattr(cv2, properties.__fields__[item].alias)))
    return getattr(properties, item)
else:
    raise AttributeError(...)
```

The native report handed to the pydantic assignment is always a
Python float; on a `ValidationError` there the getter raises, else it
returns the stored value (`none` standing for the normalized
"unknown" sentinel). -/
def infoGetAttr (fields : List (String × String × FieldKind))
    (getProp : String → ℚ) (item : String) :
    Except CVError (Option PyNum) :=
  match fields.find? (fun p => p.1 = item) with
  | some p =>
      match pydanticConvert p.2.2 (.float (getProp p.2.1)) with
      | .ok stored => .ok stored
      | .error e => .error e
  | none => .error .unknownProperty

/-- `__setattr__` of the fake properties objects:

```python
if key in properties.__fields__.keys():
    setattr(properties, key, value)
    if cap.set(getattr(cv2, properties.__fields__[key].alias), getattr(properties, key)):
        return
    else:
        raise RuntimeError(f'Failed to set {key} to {value}')
else:
    raise AttributeError(...)
```

The pydantic assignment validates/converts first; its
`ValidationError` propagates before any native call.  On success the
result records the `(alias, value)` pair handed to the native
`set`-property-by-id call.  A stored `None` (possible only for the
normalized sentinel) would reach the cv2 bindings as `None` and raise
`TypeError` there. -/
def infoSetAttr (fields : List (String × String × FieldKind))
    (setOk : String → ℚ → Bool) (key : String) (value : PyNum) :
    Except CVError (String × ℚ) :=
  match fields.find? (fun p => p.1 = key) with
  | some p =>
      match pydanticConvert p.2.2 value with
      | .ok (some stored) =>
          if setOk p.2.1 stored.val then .ok (p.2.1, stored.val)
          else .error .propertyRejected
      | .ok none => .error .typeError
      | .error e => .error e
  | none => .error .unknownProperty

/-- `video.info.<item>` on the capture proxy. -/
def captureInfoGet (cap : VideoCapture) (item : String) :
    Except CVError (Option PyNum) :=
  infoGetAttr captureFields cap.get item

/-- `video.info.<key> = value` on the capture proxy. -/
def captureInfoSet (cap : VideoCapture) (key : String) (value : PyNum) :
    Except CVError (String × ℚ) :=
  infoSetAttr captureFields cap.setAccepts key value

/-- `writer.info.<item>` on the writer proxy. -/
def writerInfoGet (w : VideoWriterState) (item : String) :
    Except CVError (Option PyNum) :=
  infoGetAttr writerFields w.props item

/-- `writer.info.<key> = value` on the writer proxy. -/
def writerInfoSet (w : VideoWriterState) (key : String) (value : PyNum) :
    Except CVError (String × ℚ) :=
  infoSetAttr writerFields w.setAccepts key value

theorem infoGetAttr_unknown (fields : List (String × String × FieldKind))
    (getProp : String → ℚ) (item : String)
    (h : fields.find? (fun p => p.1 = item) = none) :
    infoGetAttr fields getProp item = .error .unknownProperty := by
  unfold infoGetAttr
  rw [h]

theorem infoSetAttr_unknown (fields : List (String × String × FieldKind))
    (setOk : String → ℚ → Bool) (key : String) (value : PyNum)
    (h : fields.find? (fun p => p.1 = key) = none) :
    infoSetAttr fields setOk key value = .error .unknownProperty := by
  unfold infoSetAttr
  rw [h]

theorem infoGetAttr_found_ok (fields : List (String × String × FieldKind))
    (getProp : String → ℚ) (item : String) (p : String × String × FieldKind)
    (stored : Option PyNum)
    (h : fields.find? (fun q => q.1 = item) = some p)
    (hc : pydanticConvert p.2.2 (.float (getProp p.2.1)) = .ok stored) :
    infoGetAttr fields getProp item = .ok stored := by
  unfold infoGetAttr
  rw [h]
  simp only [hc]

theorem infoGetAttr_found_err (fields : List (String × String × FieldKind))
    (getProp : String → ℚ) (item : String) (p : String × String × FieldKind)
    (e : CVError)
    (h : fields.find? (fun q => q.1 = item) = some p)
    (hc : pydanticConvert p.2.2 (.float (getProp p.2.1)) = .error e) :
    infoGetAttr fields getProp item = .error e := by
  unfold infoGetAttr
  rw [h]
  simp only [hc]

theorem infoSetAttr_found_err (fields : List (String × String × FieldKind))
    (setOk : String → ℚ → Bool) (key : String) (value : PyNum)
    (p : String × String × FieldKind) (e : CVError)
    (h : fields.find? (fun q => q.1 = key) = some p)
    (hc : pydanticConvert p.2.2 value = .error e) :
    infoSetAttr fields setOk key value = .error e := by
  unfold infoSetAttr
  rw [h]
  simp only [hc]

theorem infoSetAttr_found_none (fields : List (String × String × FieldKind))
    (setOk : String → ℚ → Bool) (key : String) (value : PyNum)
    (p : String × String × FieldKind)
    (h : fields.find? (fun q => q.1 = key) = some p)
    (hc : pydanticConvert p.2.2 value = .ok none) :
    infoSetAttr fields setOk key value = .error .typeError := by
  unfold infoSetAttr
  rw [h]
  simp only [hc]

theorem infoSetAttr_found_some (fields : List (String × String × FieldKind))
    (setOk : String → ℚ → Bool) (key : String) (value : PyNum)
    (p : String × String × FieldKind) (stored : PyNum)
    (h : fields.find? (fun q => q.1 = key) = some p)
    (hc : pydanticConvert p.2.2 value = .ok (some stored)) :
    (setOk p.2.1 stored.val = true →
        infoSetAttr fields setOk key value = .ok (p.2.1, stored.val)) ∧
    (setOk p.2.1 stored.val = false →
        infoSetAttr fields setOk key value = .error .propertyRejected) := by
  unfold infoSetAttr
  rw [h]
  constructor
  · intro hs
    simp [hc, hs]
  · intro hs
    simp [hc, hs]

/-- C5, counterexample: the original claim fails on the code.  Getting
the recognized name `frame_count` does not return a converted value:
`cap.get` reports the float `300.0` for the 300-frame source, and the
pydantic pre-validator (`assert v >= 0 and isinstance(v, int)`)
raises `ValidationError` for every float report other than the `-1`
sentinel.  Setting the recognized writer name `quality` to `150`
likewise raises `ValidationError` at the pydantic assignment
(`confloat(ge=0, le=100)`) before the native set call — which this
backend would have accepted — is ever consulted. -/
theorem c5_validation_counterexample :
    captureInfoGet demoCap "frame_count" = .error .validationError ∧
    writerInfoSet demoWriter "quality" (.float 150) = .error .validationError := by
  constructor
  · rfl
  · rfl

/-- The demo capture with a backend that rejects every native set. -/
def demoRejectCap : VideoCapture :=
  { demoCap with setAccepts := fun _ _ => false }

/-- C5, amended: accessing any name outside the recognized field table
fails with the unknown-property `AttributeError`, for getters and
setters alike.  Getting a recognized name forwards the native float
report of the get-property-by-id call at the field's alias through the
pydantic assignment: it returns the converted value when validation
accepts the report and raises `ValidationError` when it does not
(notably `frame_count`, whose pre-validator rejects every float report
other than the `-1` sentinel).  Setting a recognized name validates
the value first — a bounds or type failure raises `ValidationError`
before any native call — and only then forwards the stored value to
the native set-property-by-id call, failing with the property-rejected
`RuntimeError` when that call reports rejection instead of silently
doing nothing. -/
theorem c5_info_proxy_amended (cap : VideoCapture) (w : VideoWriterState)
    (item : String) (value : PyNum) :
    (captureFields.find? (fun q => q.1 = item) = none →
        captureInfoGet cap item = .error .unknownProperty ∧
        captureInfoSet cap item value = .error .unknownProperty) ∧
    (∀ p, captureFields.find? (fun q => q.1 = item) = some p →
        (∀ stored, pydanticConvert p.2.2 (.float (cap.get p.2.1)) = .ok stored →
            captureInfoGet cap item = .ok stored) ∧
        (∀ e, pydanticConvert p.2.2 (.float (cap.get p.2.1)) = .error e →
            captureInfoGet cap item = .error e) ∧
        (∀ e, pydanticConvert p.2.2 value = .error e →
            captureInfoSet cap item value = .error e) ∧
        (∀ stored, pydanticConvert p.2.2 value = .ok (some stored) →
          (cap.setAccepts p.2.1 stored.val = true →
              captureInfoSet cap item value = .ok (p.2.1, stored.val)) ∧
          (cap.setAccepts p.2.1 stored.val = false →
              captureInfoSet cap item value = .error .propertyRejected))) ∧
    (writerFields.find? (fun q => q.1 = item) = none →
        writerInfoGet w item = .error .unknownProperty ∧
        writerInfoSet w item value = .error .unknownProperty) ∧
    (∀ p, writerFields.find? (fun q => q.1 = item) = some p →
        (∀ stored, pydanticConvert p.2.2 (.float (w.props p.2.1)) = .ok stored →
            writerInfoGet w item = .ok stored) ∧
        (∀ e, pydanticConvert p.2.2 (.float (w.props p.2.1)) = .error e →
            writerInfoGet w item = .error e) ∧
        (∀ e, pydanticConvert p.2.2 value = .error e →
            writerInfoSet w item value = .error e) ∧
        (∀ stored, pydanticConvert p.2.2 value = .ok (some stored) →
          (w.setAccepts p.2.1 stored.val = true →
              writerInfoSet w item value = .ok (p.2.1, stored.val)) ∧
          (w.setAccepts p.2.1 stored.val = false →
              writerInfoSet w item value = .error .propertyRejected))) := by
  refine ⟨fun h => ⟨?_, ?_⟩,
    fun p hp => ⟨fun stored hc => ?_, fun e hc => ?_, fun e hc => ?_,
      fun stored hc => ?_⟩,
    fun h => ⟨?_, ?_⟩,
    fun p hp => ⟨fun stored hc => ?_, fun e hc => ?_, fun e hc => ?_,
      fun stored hc => ?_⟩⟩
  · exact infoGetAttr_unknown _ _ _ h
  · exact infoSetAttr_unknown _ _ _ _ h
  · exact infoGetAttr_found_ok _ _ _ _ _ hp hc
  · exact infoGetAttr_found_err _ _ _ _ _ hp hc
  · exact infoSetAttr_found_err _ _ _ _ _ _ hp hc
  · exact infoSetAttr_found_some _ _ _ _ _ _ hp hc
  · exact infoGetAttr_unknown _ _ _ h
  · exact infoSetAttr_unknown _ _ _ _ h
  · exact infoGetAttr_found_ok _ _ _ _ _ hp hc
  · exact infoGetAttr_found_err _ _ _ _ _ hp hc
  · exact infoSetAttr_found_err _ _ _ _ _ _ hp hc
  · exact infoSetAttr_found_some _ _ _ _ _ _ hp hc

/-- Witness for the amended C5 at concrete names: an unrecognized name
fails on get and set; `fps` (a `confloat(ge=0)` field) forwards its
float report and converts; an accepted set forwards the stored value
to `CAP_PROP_FPS`; a rejecting backend yields the property-rejected
error; an out-of-bounds set raises `ValidationError`; and the writer
proxy behaves alike. -/
theorem c5_info_proxy_amended_witness :
    captureInfoGet demoCap "xyz" = .error .unknownProperty ∧
    captureInfoSet demoCap "xyz" (.int 30) = .error .unknownProperty ∧
    captureInfoGet demoCap "fps" = .ok (some (.float 300)) ∧
    captureInfoSet demoCap "fps" (.float 30) = .ok ("CAP_PROP_FPS", 30) ∧
    captureInfoSet demoRejectCap "fps" (.float 30) = .error .propertyRejected ∧
    captureInfoSet demoCap "fps" (.float (-1)) = .error .validationError ∧
    writerInfoGet demoWriter "quality" = .ok (some (.float 0)) ∧
    writerInfoSet demoWriter "xyz" (.int 1) = .error .unknownProperty := by
  have hu := (c5_info_proxy_amended demoCap demoWriter "xyz" (.int 30)).1 (by rfl)
  have hf := (c5_info_proxy_amended demoCap demoWriter "fps" (.float 30)).2.1
      ("fps", "CAP_PROP_FPS", .floatGe 0) (by rfl)
  have hr := (c5_info_proxy_amended demoRejectCap demoWriter "fps"
      (.float 30)).2.1 ("fps", "CAP_PROP_FPS", .floatGe 0) (by rfl)
  have hneg := (c5_info_proxy_amended demoCap demoWriter "fps"
      (.float (-1))).2.1 ("fps", "CAP_PROP_FPS", .floatGe 0) (by rfl)
  have hq := (c5_info_proxy_amended demoCap demoWriter "quality" (.int 1)).2.2.2
      ("quality", "VIDEOWRITER_PROP_QUALITY", .floatRange 0 100) (by rfl)
  have hwx := (c5_info_proxy_amended demoCap demoWriter "xyz" (.int 1)).2.2.1
      (by rfl)
  refine ⟨hu.1, hu.2, ?_, ?_, ?_, ?_, ?_, hwx.2⟩
  · exact hf.1 (some (.float 300)) (by rfl)
  · exact (hf.2.2.2 (.float 30) (by rfl)).1 (by rfl)
  · exact (hr.2.2.2 (.float 30) (by rfl)).2 (by rfl)
  · exact hneg.2.2.1 .validationError (by rfl)
  · exact hq.1 (some (.float 0)) (by rfl)

/-- A native GUI call a `VideoWindow` accessor can issue (the window
name argument is omitted: every call targets `self.name`). -/
inductive WinCall where
  | getWindowImageRect
  | getWindowProperty (prop : String)
  | setWindowProperty (prop : String) (value : ℚ)
  | resizeWindow (width height : ℚ)
  | imshow
  | waitKey (ms : Nat)
  deriving DecidableEq, Repr

/-- `cv2.WINDOW_FREERATIO`. -/
def windowFreeRatioConst : ℚ := 256

/-- `cv2.WINDOW_KEEPRATIO`. -/
def windowKeepRatioConst : ℚ := 0

/-- The `VideoWindow` object: only the `_is_open` attribute matters to
the accessors.  Each accessor returns the list of native GUI calls it
issues, or the error it raises; an error result means no native call
was reached. -/
structure VideoWindow where
  isOpen : Bool

/-- `VideoWindow.size` getter: checks `_is_open`, then calls
`cv2.getWindowImageRect`. -/
def VideoWindow.sizeGet (w : VideoWindow) : Except CVError (List WinCall) :=
  if w.isOpen = false then .error .notOpen
  else .ok [.getWindowImageRect]

/-- `VideoWindow.size` setter: calls `cv2.resizeWindow` with no
`_is_open` check. -/
def VideoWindow.sizeSet (_w : VideoWindow) (value : ℚ × ℚ) :
    Except CVError (List WinCall) :=
  .ok [.resizeWindow value.1 value.2]

/-- `VideoWindow.auto_size` getter: checks `_is_open`, then reads
`cv2.WND_PROP_AUTOSIZE`. -/
def VideoWindow.autoSizeGet (w : VideoWindow) : Except CVError (List WinCall) :=
  if w.isOpen = false then .error .notOpen
  else .ok [.getWindowProperty "WND_PROP_AUTOSIZE"]

/-- `VideoWindow.fullscreen` getter: reads `cv2.WND_PROP_FULLSCREEN`
with no `_is_open` check. -/
def VideoWindow.fullscreenGet (_w : VideoWindow) : Except CVError (List WinCall) :=
  .ok [.getWindowProperty "WND_PROP_FULLSCREEN"]

/-- `VideoWindow.fullscreen` setter: writes `cv2.WND_PROP_FULLSCREEN`
(`int(value)`) with no `_is_open` check. -/
def VideoWindow.fullscreenSet (_w : VideoWindow) (value : Bool) :
    Except CVError (List WinCall) :=
  .ok [.setWindowProperty "WND_PROP_FULLSCREEN" (if value then 1 else 0)]

/-- `VideoWindow.aspect_ratio` getter: reads `cv2.WND_PROP_ASPECT_RATIO`
with no `_is_open` check. -/
def VideoWindow.aspectRatioGet (_w : VideoWindow) : Except CVError (List WinCall) :=
  .ok [.getWindowProperty "WND_PROP_ASPECT_RATIO"]

/-- The argument of the `aspect_ratio` setter: a numeric ratio or one
of the two named string constants. -/
inductive AspectArg where
  | num (q : ℚ)
  | str (s : String)

/-- `VideoWindow.aspect_ratio` setter: maps `"freeratio"` /
`"keepratio"` to the cv2 constants, rejects any other string with
`ValueError`, then writes `cv2.WND_PROP_ASPECT_RATIO` — all without an
`_is_open` check. -/
def VideoWindow.aspectRatioSet (_w : VideoWindow) (value : AspectArg) :
    Except CVError (List WinCall) :=
  match value with
  | .num q => .ok [.setWindowProperty "WND_PROP_ASPECT_RATIO" q]
  | .str s =>
      if s = "freeratio" then
        .ok [.setWindowProperty "WND_PROP_ASPECT_RATIO" windowFreeRatioConst]
      else if s = "keepratio" then
        .ok [.setWindowProperty "WND_PROP_ASPECT_RATIO" windowKeepRatioConst]
      else .error .invalidValue

/-- `VideoWindow.opengl` getter: reads `cv2.WND_PROP_OPENGL` with no
`_is_open` check. -/
def VideoWindow.openglGet (_w : VideoWindow) : Except CVError (List WinCall) :=
  .ok [.getWindowProperty "WND_PROP_OPENGL"]

/-- `VideoWindow.visible` getter: reads `cv2.WND_PROP_VISIBLE` with no
`_is_open` check. -/
def VideoWindow.visibleGet (_w : VideoWindow) : Except CVError (List WinCall) :=
  .ok [.getWindowProperty "WND_PROP_VISIBLE"]

/-- `VideoWindow.topmost` getter: checks `_is_open`, then reads
`cv2.WND_PROP_TOPMOST`. -/
def VideoWindow.topmostGet (w : VideoWindow) : Except CVError (List WinCall) :=
  if w.isOpen = false then .error .notOpen
  else .ok [.getWindowProperty "WND_PROP_TOPMOST"]

/-- `VideoWindow.vsync` getter: checks `_is_open`, then reads
`cv2.WND_PROP_VSYNC` (a `cv2.error` there is swallowed and reported as
`False`; only the issued call is modelled). -/
def VideoWindow.vsyncGet (w : VideoWindow) : Except CVError (List WinCall) :=
  if w.isOpen = false then .error .notOpen
  else .ok [.getWindowProperty "WND_PROP_VSYNC"]

/-- `VideoWindow.vsync` setter: writes `cv2.WND_PROP_VSYNC`
(`int(value)`) with no `_is_open` check. -/
def VideoWindow.vsyncSet (_w : VideoWindow) (value : Bool) :
    Except CVError (List WinCall) :=
  .ok [.setWindowProperty "WND_PROP_VSYNC" (if value then 1 else 0)]

/-- `VideoWindow.write`: checks `_is_open`, then shows the frame and
pumps the event loop once (`cv2.waitKey(1)`). -/
def VideoWindow.write (w : VideoWindow) (_frame : Frame3) :
    Except CVError (List WinCall) :=
  if w.isOpen = false then .error .notOpen
  else .ok [.imshow, .waitKey 1]

/-- C6, counterexample: on a closed window the `fullscreen` getter does
NOT fail with the not-open error — it proceeds straight to the native
`cv2.getWindowProperty` call, so the claim that all eight property
accessors require `is_open` is false. -/
theorem c6_not_open_counterexample :
    VideoWindow.fullscreenGet { isOpen := false } =
      .ok [.getWindowProperty "WND_PROP_FULLSCREEN"] ∧
    VideoWindow.fullscreenGet { isOpen := false } ≠
      .error .notOpen := by
  refine ⟨rfl, ?_⟩
  intro h
  exact Except.noConfusion h

/-- C6, amended: on a window with `is_open == false`, exactly the
`size`, `auto_size`, `topmost` and `vsync` getters (and `write`) fail
with the not-open error before any native call; the `size` setter, the
`fullscreen`, `aspect_ratio`, `opengl` and `visible` accessors and the
`vsync` setter reach their native window call without the check. -/
theorem c6_not_open_amended (w : VideoWindow) (h : w.isOpen = false) :
    (w.sizeGet = .error .notOpen ∧
     w.autoSizeGet = .error .notOpen ∧
     w.topmostGet = .error .notOpen ∧
     w.vsyncGet = .error .notOpen ∧
     ∀ frame, w.write frame = .error .notOpen) ∧
    ((∀ v, w.sizeSet v = .ok [.resizeWindow v.1 v.2]) ∧
     w.fullscreenGet = .ok [.getWindowProperty "WND_PROP_FULLSCREEN"] ∧
     (∀ b, w.fullscreenSet b =
        .ok [.setWindowProperty "WND_PROP_FULLSCREEN" (if b then 1 else 0)]) ∧
     w.aspectRatioGet = .ok [.getWindowProperty "WND_PROP_ASPECT_RATIO"] ∧
     (∀ q, w.aspectRatioSet (.num q) =
        .ok [.setWindowProperty "WND_PROP_ASPECT_RATIO" q]) ∧
     w.openglGet = .ok [.getWindowProperty "WND_PROP_OPENGL"] ∧
     w.visibleGet = .ok [.getWindowProperty "WND_PROP_VISIBLE"] ∧
     (∀ b, w.vsyncSet b =
        .ok [.setWindowProperty "WND_PROP_VSYNC" (if b then 1 else 0)])) := by
  refine ⟨⟨?_, ?_, ?_, ?_, fun frame => ?_⟩,
    fun v => rfl, rfl, fun b => rfl, rfl, fun q => rfl, rfl, rfl, fun b => rfl⟩
  · unfold VideoWindow.sizeGet
    rw [h]
    rfl
  · unfold VideoWindow.autoSizeGet
    rw [h]
    rfl
  · unfold VideoWindow.topmostGet
    rw [h]
    rfl
  · unfold VideoWindow.vsyncGet
    rw [h]
    rfl
  · unfold VideoWindow.write
    rw [h]
    rfl

/-- Witness for the amended C6 at the concrete closed window. -/
theorem c6_not_open_amended_witness :
    VideoWindow.sizeGet { isOpen := false } = .error .notOpen ∧
    VideoWindow.write { isOpen := false } [[[1, 2, 3]]] = .error .notOpen ∧
    VideoWindow.visibleGet { isOpen := false } =
      .ok [.getWindowProperty "WND_PROP_VISIBLE"] := by
  have h := c6_not_open_amended { isOpen := false } rfl
  exact ⟨h.1.1, h.1.2.2.2.2 [[[1, 2, 3]]], h.2.2.2.2.2.2.2.1⟩

/-- The ndarray buffer store: `bufs.get i` is the current contents of
buffer `i`; allocation appends a new buffer. -/
structure Heap where
  bufs : List Frame3

/-- Allocate a fresh buffer holding `f`; returns the new heap and the
fresh buffer's index. -/
def Heap.alloc (h : Heap) (f : Frame3) : Heap × Nat :=
  ({ bufs := h.bufs ++ [f] }, h.bufs.length)

/-- Contents of buffer `i`. -/
def Heap.get (h : Heap) (i : Nat) : Frame3 :=
  h.bufs.getD i []

/-- Overwrite buffer `i` in place. -/
def Heap.write (h : Heap) (i : Nat) (f : Frame3) : Heap :=
  { bufs := h.bufs.set i f }

/-- `_copy_if_not_inplace`:

```python
if not inplace:
    return x.copy()
return x
```

`x.copy()` allocates a fresh buffer with the same contents. -/
def copyIfNotInplace (h : Heap) (x : Nat) (inplace : Bool) : Heap × Nat :=
  if inplace = false then h.alloc (h.get x) else (h, x)

/-- A native OpenCV filter call with an explicit `dst` buffer
(`cv2.boxFilter(x, -1, ksize, dst, ...)` and friends): reads the
source buffer, writes the kernel's result into `dst`, and returns
`dst`.  The pixel kernel itself lives in the native library and enters
as the function parameter `k`. -/
def nativeFilterTo (k : Frame3 → Frame3) (h : Heap) (src dst : Nat) :
    Heap × Nat :=
  (h.write dst (k (h.get src)), dst)

/-- `box_blur(x, ksize, anchor, normalize, border_type, inplace=...)`:
`dst = _copy_if_not_inplace(x, inplace)` then
`cv2.boxFilter(x, -1, ksize, dst, anchor, normalize, border)`. -/
def box_blur (k : Frame3 → Frame3) (h : Heap) (x : Nat) (inplace : Bool) :
    Heap × Nat :=
  match copyIfNotInplace h x inplace with
  | (h1, dst) => nativeFilterTo k h1 x dst

/-- `blur(...)`: same copy-then-filter pattern around `cv2.blur`. -/
def blur (k : Frame3 → Frame3) (h : Heap) (x : Nat) (inplace : Bool) :
    Heap × Nat :=
  match copyIfNotInplace h x inplace with
  | (h1, dst) => nativeFilterTo k h1 x dst

/-- `gaussian_blur(...)`: same pattern around `cv2.GaussianBlur`. -/
def gaussian_blur (k : Frame3 → Frame3) (h : Heap) (x : Nat) (inplace : Bool) :
    Heap × Nat :=
  match copyIfNotInplace h x inplace with
  | (h1, dst) => nativeFilterTo k h1 x dst

/-- `median_blur(...)`: same pattern around `cv2.medianBlur`. -/
def median_blur (k : Frame3 → Frame3) (h : Heap) (x : Nat) (inplace : Bool) :
    Heap × Nat :=
  match copyIfNotInplace h x inplace with
  | (h1, dst) => nativeFilterTo k h1 x dst

theorem copy_filter_not_inplace (k : Frame3 → Frame3) (h : Heap) (x : Nat)
    (hx : x < h.bufs.length) :
    (box_blur k h x false).2 ≠ x ∧
    (box_blur k h x false).1.get x = h.get x := by
  have hbody : box_blur k h x false =
      ({ bufs := (h.bufs ++ [h.get x]).set h.bufs.length
          (k ((h.bufs ++ [h.get x]).getD x [])) }, h.bufs.length) := rfl
  rw [hbody]
  have hne : h.bufs.length ≠ x := by omega
  constructor
  · exact hne
  · show ((h.bufs ++ [h.get x]).set h.bufs.length _).getD x [] = h.bufs.getD x []
    rw [List.getD_eq_getElem?_getD, List.getElem?_set_ne hne,
      List.getElem?_append_left hx, ← List.getD_eq_getElem?_getD]

/-- C7: each blur function called with `inplace=false` copies the input
into a fresh destination buffer and lets the native filter write there:
the input buffer is never mutated and the returned buffer is distinct
from the input buffer. -/
theorem blur_not_inplace_spec (k : Frame3 → Frame3) (h : Heap) (x : Nat)
    (hx : x < h.bufs.length) :
    ((box_blur k h x false).2 ≠ x ∧
      (box_blur k h x false).1.get x = h.get x) ∧
    ((blur k h x false).2 ≠ x ∧
      (blur k h x false).1.get x = h.get x) ∧
    ((gaussian_blur k h x false).2 ≠ x ∧
      (gaussian_blur k h x false).1.get x = h.get x) ∧
    ((median_blur k h x false).2 ≠ x ∧
      (median_blur k h x false).1.get x = h.get x) :=
  ⟨copy_filter_not_inplace k h x hx, copy_filter_not_inplace k h x hx,
    copy_filter_not_inplace k h x hx, copy_filter_not_inplace k h x hx⟩

/-- A one-buffer heap holding the demo 1x1 frame. -/
def demoHeap : Heap := { bufs := [[[[1, 2, 3]]]] }

/-- Witness for C7 on the concrete heap, with the identity pixel
kernel: the fresh result lands in buffer 1 and buffer 0 keeps its
contents. -/
theorem blur_not_inplace_spec_witness :
    (box_blur id demoHeap 0 false).2 = 1 ∧
    (box_blur id demoHeap 0 false).1.get 0 = [[[1, 2, 3]]] ∧
    (median_blur id demoHeap 0 false).2 ≠ 0 := by
  have h := blur_not_inplace_spec id demoHeap 0 (by decide)
  exact ⟨rfl, h.1.2, h.2.2.2.1⟩

/-- The function a `Pipeline` is constructed around
(`Pipeline._generate_fn`):

```python
def fn(x):
    for transformer in self._transformers:
        x = transformer(x)
    return x
```

The transformer tuple is fixed at construction and the loop rebinds
only the local `x`, so a pipeline value is a pure function. -/
def pipelineApply {α : Type} (transformers : List (α → α)) (x : α) : α :=
  transformers.foldl (fun a t => t a) x

/-- The specification's composition `fn(...f2(f1(x)))`, written as the
nested application with the last transformer outermost (spec-side
definition, compared against the loop of the source). -/
def nestedApply {α : Type} (transformers : List (α → α)) (x : α) : α :=
  transformers.reverse.foldr (fun f r => f r) x

/-- C8: `Pipeline(f1, ..., fn)(x)` is the strict left-to-right
application `fn(...f2(f1(x)))`; in particular the two-stage pipeline
is plain composition, and since a pipeline is a pure function of its
fixed transformer list, reusing it across many inputs agrees with
independent nested applications. -/
theorem pipeline_left_to_right {α : Type} (fs : List (α → α)) (x : α)
    (f1 f2 : α → α) (xs : List α) :
    pipelineApply fs x = nestedApply fs x ∧
    pipelineApply [f1, f2] x = f2 (f1 x) ∧
    xs.map (pipelineApply fs) = xs.map (nestedApply fs) := by
  have key : ∀ (gs : List (α → α)) (y : α),
      pipelineApply gs y = nestedApply gs y := by
    intro gs y
    unfold pipelineApply nestedApply
    rw [List.foldr_reverse]
  exact ⟨key fs x, rfl, by rw [funext (key fs)]⟩

/-- The output-type enum of the image writer (`ImageWriteFlag`). -/
inductive ImageWriteFlag where
  | jpeg
  | png
  | webp
  | tiff
  | exr
  deriving DecidableEq, Repr

/-- `IMAGE_WRITE_FLAG_DICT`: each output type maps to a cv2 ENCODE
PARAMETER id (a quality/compression knob), not to a container
format. -/
def IMAGE_WRITE_FLAG_DICT : ImageWriteFlag → String
  | .jpeg => "IMWRITE_JPEG_QUALITY"
  | .png => "IMWRITE_PNG_COMPRESSION"
  | .webp => "IMWRITE_WEBP_QUALITY"
  | .tiff => "IMWRITE_TIFF_COMPRESSION"
  | .exr => "IMWRITE_EXR_TYPE"

/-- `_image_write_flag_wrapper`:

```python
if type is None:
    return None
flag: int = IMAGE_WRITE_FLAG_DICT[type]
if type in ['webp', 'jpeg']:
    if quality is not None:
        return flag, quality
return flag, None
``` -/
def imageWriteFlagWrapper (ty : Option ImageWriteFlag) (quality : Option ℚ) :
    Option (String × Option ℚ) :=
  match ty with
  | none => none
  | some t =>
      if t = .webp ∨ t = .jpeg then
        match quality with
        | some q => some (IMAGE_WRITE_FLAG_DICT t, some q)
        | none => some (IMAGE_WRITE_FLAG_DICT t, none)
      else some (IMAGE_WRITE_FLAG_DICT t, none)

/-- A decoded ndarray image: 2-dimensional grayscale or 3-dimensional
color. -/
inductive DecodedImage where
  | gray (rows : List (List Pix))
  | color (rows : List (List (List Pix)))
  deriving DecidableEq, Repr

/-- Numpy's `a[..., ::-1]`: reverses the LAST axis, whatever it is —
the channel axis of a 3-dimensional image, but the column axis of a
2-dimensional one. -/
def lastAxisRev : DecodedImage → DecodedImage
  | .gray rows => .gray (rows.map List.reverse)
  | .color rows => .color (rows.map (fun r => r.map List.reverse))

/-- The arguments `write_image_to_bytes` hands to `cv2.imencode`. -/
structure EncodeRequest where
  ext : String
  image : DecodedImage
  params : Option (String × Option ℚ)
  deriving DecidableEq, Repr

/-- The arguments `write_image_to_file` hands to `cv2.imwrite` (whose
container format is chosen by the filename extension). -/
structure FileWriteRequest where
  filename : String
  image : DecodedImage
  params : Option (String × Option ℚ)
  deriving DecidableEq, Repr

/-- `write_image_to_bytes(image, type=..., quality=95)`:

```python
flag = _image_write_flag_wrapper(type, quality)
ret, result = cv2.imencode('.jpg', image[..., ::-1], flag)
```

The extension handed to the native encoder is the hard-coded
`'.jpg'`. -/
def write_image_to_bytes (image : DecodedImage) (ty : Option ImageWriteFlag)
    (quality : ℚ) : EncodeRequest :=
  { ext := ".jpg"
    image := lastAxisRev image
    params := imageWriteFlagWrapper ty (some quality) }

/-- `write_image_to_file(image, filename, type=..., quality=95)`:

```python
if type is not None:
    flag = _image_write_flag_wrapper(type, quality)
else:
    flag = None
result = cv2.imwrite(str(filename), image[..., ::-1], flag)
``` -/
def write_image_to_file (image : DecodedImage) (filename : String)
    (ty : Option ImageWriteFlag) (quality : ℚ) : FileWriteRequest :=
  { filename := filename
    image := lastAxisRev image
    params :=
      match ty with
      | some _ => imageWriteFlagWrapper ty (some quality)
      | none => none }

/-- The file extension that would request each output format from the
native encoder (spec-side definition: the claim's "encode the image in
the requested format"). -/
def specRequestedExt : ImageWriteFlag → String
  | .jpeg => ".jpg"
  | .png => ".png"
  | .webp => ".webp"
  | .tiff => ".tiff"
  | .exr => ".exr"

/-- C9, counterexample: requesting output type png from
`write_image_to_bytes` still hands the native encoder the hard-coded
".jpg" extension, so the bytes are JPEG-encoded, not PNG-encoded: the
requested-format part of the claim is false. -/
theorem c9_format_counterexample :
    (write_image_to_bytes (.gray [[1]]) (some .png) 95).ext = ".jpg" ∧
    (write_image_to_bytes (.gray [[1]]) (some .png) 95).ext ≠
      specRequestedExt .png := by
  exact ⟨rfl, by decide⟩

/-- C9, amended: the output type selects only the cv2 encode-parameter
id of `IMAGE_WRITE_FLAG_DICT`; the quality value is attached to the
encode parameters exactly when the type is jpeg or webp;
`write_image_to_bytes` always passes the fixed ".jpg" extension
regardless of the requested type, and `write_image_to_file` passes the
filename (whose extension determines the container format)
unchanged. -/
theorem c9_write_flags_amended (img : DecodedImage) (ty : ImageWriteFlag)
    (q : ℚ) (filename : String) :
    (write_image_to_bytes img (some ty) q).ext = ".jpg" ∧
    (write_image_to_bytes img (some ty) q).params =
      some (IMAGE_WRITE_FLAG_DICT ty,
        if ty = .webp ∨ ty = .jpeg then some q else none) ∧
    (write_image_to_file img filename (some ty) q).filename = filename ∧
    (write_image_to_file img filename (some ty) q).params =
      some (IMAGE_WRITE_FLAG_DICT ty,
        if ty = .webp ∨ ty = .jpeg then some q else none) := by
  have hw : imageWriteFlagWrapper (some ty) (some q) =
      some (IMAGE_WRITE_FLAG_DICT ty,
        if ty = .webp ∨ ty = .jpeg then some q else none) := by
    unfold imageWriteFlagWrapper
    by_cases h : ty = .webp ∨ ty = .jpeg
    · simp [h]
    · simp [h]
  exact ⟨rfl, hw, rfl, hw⟩

/-- The color-mode enum of the image reader (`ImageReadFlag`). -/
inductive ImageReadFlag where
  | unchanged
  | grayscale
  | color
  deriving DecidableEq, Repr

/-- The single-key entries of `IMAGE_READ_FLAG_DICT` reachable from the
`color_mode` parameter (the dict's further `anydepth`-style keys are
unreachable through the reader functions; the `(mode, ratio)` pair
keys are looked up via `imageReadPairFlag`). -/
def IMAGE_READ_FLAG_DICT : ImageReadFlag → String
  | .unchanged => "IMREAD_UNCHANGED"
  | .grayscale => "IMREAD_GRAYSCALE"
  | .color => "IMREAD_COLOR"

/-- The `(color_mode, reduce_ratio)` pair entries of
`IMAGE_READ_FLAG_DICT`: present for grayscale/color at ratios 2, 4, 8;
a missing pair is a `KeyError`. -/
def imageReadPairFlag (mode : ImageReadFlag) (ratio : Nat) : Option String :=
  match mode, ratio with
  | .grayscale, 2 => some "IMREAD_REDUCED_GRAYSCALE_2"
  | .grayscale, 4 => some "IMREAD_REDUCED_GRAYSCALE_4"
  | .grayscale, 8 => some "IMREAD_REDUCED_GRAYSCALE_8"
  | .color, 2 => some "IMREAD_REDUCED_COLOR_2"
  | .color, 4 => some "IMREAD_REDUCED_COLOR_4"
  | .color, 8 => some "IMREAD_REDUCED_COLOR_8"
  | _, _ => none

/-- `_image_read_flag_wrapper`:

```python
assert color_mode in IMAGE_READ_FLAG_DICT, AttributeError(...)
flag = IMAGE_READ_FLAG_DICT[color_mode]
if reduce_ratio is not None:
    if color_mode in ['grayscale', 'color']:
        flag = IMAGE_READ_FLAG_DICT[(color_mode, reduce_ratio)]
    else:
        raise AttributeError(f"Cannot reduce image with color_mode {color_mode}")
return flag
``` -/
def imageReadFlagWrapper (mode : ImageReadFlag) (ratio : Option Nat) :
    Except CVError String :=
  match ratio with
  | none => .ok (IMAGE_READ_FLAG_DICT mode)
  | some r =>
      if mode = .grayscale ∨ mode = .color then
        match imageReadPairFlag mode r with
        | some flag => .ok flag
        | none => .error .keyError
      else .error .invalidFlag

/-- `read_image_from_bytes(b, color_mode, reduce_ratio)`: resolves the
read flag, decodes via `cv2.imdecode(np.frombuffer(b, np.uint8), flag)`
(the native decoder enters as the parameter `imdecode`; `none` is a
failed decode), then applies the unconditional `result[..., ::-1]`. -/
def read_image_from_bytes
    (imdecode : List Nat → String → Option DecodedImage)
    (b : List Nat) (mode : ImageReadFlag) (ratio : Option Nat) :
    Except CVError DecodedImage :=
  match imageReadFlagWrapper mode ratio with
  | .error e => .error e
  | .ok flag =>
      match imdecode b flag with
      | none => .error .decodeFailure
      | some result => .ok (lastAxisRev result)

/-- `read_image_from_file(filename, color_mode, reduce_ratio)`: the
same around `cv2.imread(str(filename), flag)`. -/
def read_image_from_file
    (imread : String → String → Option DecodedImage)
    (filename : String) (mode : ImageReadFlag) (ratio : Option Nat) :
    Except CVError DecodedImage :=
  match imageReadFlagWrapper mode ratio with
  | .error e => .error e
  | .ok flag =>
      match imread filename flag with
      | none => .error .decodeFailure
      | some result => .ok (lastAxisRev result)

/-- C10: whenever the native decode yields a 2-dimensional (grayscale)
array, both image readers return it with its last axis reversed: the
channel-normalization indexing `[..., ::-1]` is applied
unconditionally, and with no channel axis it reverses the columns, so
the returned picture is mirrored left-to-right. -/
theorem read_image_gray_mirrors
    (imdecode : List Nat → String → Option DecodedImage)
    (imread : String → String → Option DecodedImage)
    (b : List Nat) (filename : String) (mode : ImageReadFlag)
    (ratio : Option Nat) (flag : String) (rows : List (List Pix))
    (hflag : imageReadFlagWrapper mode ratio = .ok flag) :
    (imdecode b flag = some (.gray rows) →
        read_image_from_bytes imdecode b mode ratio =
          .ok (.gray (rows.map List.reverse))) ∧
    (imread filename flag = some (.gray rows) →
        read_image_from_file imread filename mode ratio =
          .ok (.gray (rows.map List.reverse))) := by
  constructor
  · intro hdec
    unfold read_image_from_bytes
    rw [hflag]
    simp only [hdec]
    rfl
  · intro hdec
    unfold read_image_from_file
    rw [hflag]
    simp only [hdec]
    rfl

/-- A native decoder producing a 1x2 grayscale picture for every
input. -/
def demoGrayDecode : List Nat → String → Option DecodedImage :=
  fun _ _ => some (.gray [[1, 2]])

/-- The same picture from the file-based decoder. -/
def demoGrayRead : String → String → Option DecodedImage :=
  fun _ _ => some (.gray [[1, 2]])

/-- Witness for C10: decoding the 1x2 grayscale picture `[[1, 2]]`
returns `[[2, 1]]` — mirrored columns, not converted channels. -/
theorem read_image_gray_mirrors_witness :
    read_image_from_bytes demoGrayDecode [0] .unchanged none =
      .ok (.gray [[2, 1]]) ∧
    read_image_from_file demoGrayRead "sample.jpg" .grayscale none =
      .ok (.gray [[2, 1]]) := by
  have h1 := (read_image_gray_mirrors demoGrayDecode demoGrayRead [0]
      "sample.jpg" .unchanged none "IMREAD_UNCHANGED" [[1, 2]] rfl).1 rfl
  have h2 := (read_image_gray_mirrors demoGrayDecode demoGrayRead [0]
      "sample.jpg" .grayscale none "IMREAD_GRAYSCALE" [[1, 2]] rfl).2 rfl
  exact ⟨h1, h2⟩

end PythonCV
